import Mathlib

/-!
Shallow embedding of the Content-Analyzer upload route
(`src/app/api/upload/route.ts`): the `POST` handler with its validation
checks, the PDF text-extraction post-processing, the `analyzeContent`
wrapper around the remote AI call, and the response assembly.

External collaborators (the PDF parser, the OCR engine, the remote AI
completion service, `JSON.parse`) are passed in as explicit outcomes or
functions; everything the route itself computes is embedded as executable
Lean definitions.  JavaScript numbers are modelled as `Option ℚ`, with
`none` standing for `NaN`; JSON numbers produced by `JSON.parse` are
modelled as finite rationals.
-/

/-- A JSON value as produced by `JSON.parse` on the remote service's reply. -/
inductive JsonValue where
  | null
  | bool (b : Bool)
  | num (q : ℚ)
  | str (s : String)
  | arr (elems : List JsonValue)
  | obj (fields : List (String × JsonValue))

/-- Last-wins key lookup, matching how `JSON.parse` resolves duplicate keys
in a JavaScript object. -/
def jsonLookup (fields : List (String × JsonValue)) (key : String) : Option JsonValue :=
  fields.foldl (fun acc kv => if kv.1 = key then some kv.2 else acc) none

/-- Property access `v.key`: `undefined` (here `none`) on objects missing the
key and on non-object primitives.  Access on `null` throws a TypeError in
JavaScript; callers handle the `null` case before using this. -/
def getField (v : JsonValue) (key : String) : Option JsonValue :=
  match v with
  | .obj fields => jsonLookup fields key
  | _ => none

/-- JavaScript truthiness of a parsed JSON value. -/
def truthy (v : JsonValue) : Bool :=
  match v with
  | .null => false
  | .bool b => b
  | .num q => q != 0
  | .str s => s != ""
  | .arr _ => true
  | .obj _ => true

/-- Whitespace as recognised by `String.prototype.trim` (and by `ToNumber`
on strings); the common code points suffice for this code base. -/
def isJsWhitespace (c : Char) : Bool :=
  c == ' ' || c == '\t' || c == '\n' || c == '\r' || c == '\x0B' || c == '\x0C' || c == ' '

/-- Trim of a character list: drop whitespace from the front, then from the
back. -/
def jsTrimList (l : List Char) : List Char :=
  ((l.dropWhile isJsWhitespace).reverse.dropWhile isJsWhitespace).reverse

/-- `String.prototype.trim`. -/
def jsTrim (s : String) : String :=
  ⟨jsTrimList s.data⟩

/-- `text.substring(0, n)`: the first `n` characters. -/
def strTake (s : String) (n : Nat) : String :=
  ⟨s.data.take n⟩

/-- `Array.prototype.join(sep)`. -/
def jsJoin (sep : String) : List String → String
  | [] => ""
  | [x] => x
  | x :: y :: rest => x ++ sep ++ jsJoin sep (y :: rest)

/-- Numeric value of a digit list, most significant first. -/
def digitsVal (ds : List Char) : Nat :=
  ds.foldl (fun acc c => 10 * acc + (c.toNat - 48)) 0

/-- Exponent suffix of a numeric string: all-digit tail applied as a power
of ten (negated when `neg`). -/
def expDigits (neg : Bool) (ds : List Char) (m : ℚ) : Option ℚ :=
  if ds.isEmpty || !(ds.all Char.isDigit) then none
  else some (if neg then m / 10 ^ digitsVal ds else m * 10 ^ digitsVal ds)

/-- Tail of a numeric string after `e`/`E`: optional sign then digits. -/
def parseAfterE (m : ℚ) : List Char → Option ℚ
  | '+' :: ds => expDigits false ds m
  | '-' :: ds => expDigits true ds m
  | ds => expDigits false ds m

/-- Mantissa of a decimal numeric string: digits with an optional fraction
part; returns its value and the unconsumed tail. -/
def parseMantissa (l : List Char) : Option (ℚ × List Char) :=
  let intDs := l.takeWhile Char.isDigit
  let rest1 := l.dropWhile Char.isDigit
  match rest1 with
  | '.' :: rest2 =>
    let fracDs := rest2.takeWhile Char.isDigit
    let rest3 := rest2.dropWhile Char.isDigit
    if intDs.isEmpty && fracDs.isEmpty then none
    else some ((digitsVal intDs : ℚ) + (digitsVal fracDs : ℚ) / 10 ^ fracDs.length, rest3)
  | _ => if intDs.isEmpty then none else some ((digitsVal intDs : ℚ), rest1)

/-- Unsigned decimal literal with optional exponent, consumed to the end. -/
def parseUnsignedNumber (l : List Char) : Option ℚ :=
  match parseMantissa l with
  | none => none
  | some (m, rest) =>
    match rest with
    | [] => some m
    | c :: rest2 => if c == 'e' || c == 'E' then parseAfterE m rest2 else none

/-- Signed decimal literal. -/
def parseSignedNumber : List Char → Option ℚ
  | '-' :: rest => (parseUnsignedNumber rest).map (fun q => -q)
  | '+' :: rest => parseUnsignedNumber rest
  | l => parseUnsignedNumber l

/-- JavaScript `ToNumber` on a string: trimmed empty string is `0`,
otherwise a decimal literal, otherwise `NaN` (`none`).  Hexadecimal and
`Infinity` literals are not modelled; no claim exercises them. -/
def strToNumber (s : String) : Option ℚ :=
  let l := jsTrimList s.data
  if l.isEmpty then some 0 else parseSignedNumber l

/-- JavaScript `ToNumber` on a parsed JSON value.  Arrays coerce through
`Array.prototype.toString`; the empty and one-element primitive cases are
modelled exactly, other arrays and all plain objects give `NaN`. -/
def toNumber (v : JsonValue) : Option ℚ :=
  match v with
  | .null => some 0
  | .bool b => some (if b then 1 else 0)
  | .num q => some q
  | .str s => strToNumber s
  | .arr [] => some 0
  | .arr [.null] => some 0
  | .arr [.num q] => some q
  | .arr [.str s] => strToNumber s
  | .arr _ => none
  | .obj _ => none

/-- The `||` operator applied to a possibly-absent field (`none` models
`undefined`, which is falsy). -/
def jsOr (v : Option JsonValue) (d : JsonValue) : JsonValue :=
  match v with
  | some x => if truthy x then x else d
  | none => d

/-- `Math.max` on JavaScript numbers: `NaN` absorbs. -/
def jsMax (a b : Option ℚ) : Option ℚ :=
  match a, b with
  | some x, some y => some (max x y)
  | _, _ => none

/-- `Math.min` on JavaScript numbers: `NaN` absorbs. -/
def jsMin (a b : Option ℚ) : Option ℚ :=
  match a, b with
  | some x, some y => some (min x y)
  | _, _ => none

/-- The object `analyzeContent` returns: `engagementScore` is a JavaScript
number (`none` = `NaN`); the other three fields hold whatever JSON value
the `||` defaulting produced. -/
structure Analysis where
  engagementScore : Option ℚ
  sentiment : JsonValue
  suggestions : JsonValue
  keyTopics : JsonValue

/-- The four canned suggestion strings of the fallback analysis. -/
def defaultSuggestions : List JsonValue :=
  [.str "Add more engaging questions to increase comments",
   .str "Include relevant hashtags to improve discoverability",
   .str "Use more visual content to boost engagement",
   .str "Post during peak hours for better reach"]

/-- The fixed fallback analysis returned when the AI call fails. -/
def fallbackAnalysis : Analysis :=
  { engagementScore := some 75
    sentiment := .str "neutral"
    suggestions := .arr defaultSuggestions
    keyTopics := .arr [.str "Content", .str "Social Media"] }

/-- The analysis object built from a successfully parsed service reply
(route lines 113-123).  Accessing a property of `null` throws a TypeError
which the surrounding catch turns into the fallback. -/
def buildParsedAnalysis (v : JsonValue) : Analysis :=
  match v with
  | .null => fallbackAnalysis
  | _ =>
    { engagementScore :=
        jsMin (some 100) (jsMax (some 0)
          (toNumber (jsOr (getField v "engagementScore") (.num 75))))
      sentiment := jsOr (getField v "sentiment") (.str "neutral")
      suggestions := jsOr (getField v "suggestions") (.arr defaultSuggestions)
      keyTopics := jsOr (getField v "keyTopics") (.arr [.str "Content", .str "Social Media"]) }

/-- Outcome of the remote AI completion call: the SDK threw, or it returned
a completion whose message content is absent (`none`) or a string. -/
inductive RemoteOutcome where
  | threw
  | response (content : Option String)

/-- The `analyzeContent` helper: every failure inside the try block (SDK
throw, missing or empty content, `JSON.parse` throw, TypeError on `null`)
lands in the catch and yields the fallback.  `parseJson` is the outcome of
`JSON.parse` on the reply string (`none` = parse error). -/
def analyzeContent (remote : RemoteOutcome) (parseJson : String → Option JsonValue) : Analysis :=
  match remote with
  | .threw => fallbackAnalysis
  | .response none => fallbackAnalysis
  | .response (some s) =>
    if s = "" then fallbackAnalysis
    else
      match parseJson s with
      | none => fallbackAnalysis
      | some v => buildParsedAnalysis v

/-- Text of the analysis prompt before the interpolated content (route
lines 68-75; line breaks and indentation of the template literal kept in
spirit). -/
def promptHeader : String :=
  "\n    Analyze the following text content for social media engagement and provide:\n    1. An engagement score from 0-100\n    2. Sentiment analysis (positive, neutral, or negative)\n    3. 4 specific suggestions to improve social media engagement\n    4. Key topics mentioned in the content\n\n    Content to analyze:\n    "

/-- Text of the analysis prompt after the interpolated content (route lines
76-85; the stray comment on line 76 sits inside the template literal and is
part of the prompt). -/
def promptFooter : String :=
  " // Limit text length for analysis\n\n    Please respond in JSON format with the following structure:\n    \x7b\n      \"engagementScore\": number,\n      \"sentiment\": \"positive\" | \"neutral\" | \"negative\",\n      \"suggestions\": string[],\n      \"keyTopics\": string[]\n    \x7d\n    "

/-- The prompt sent to the remote service: the extracted text is cut to its
first 2000 characters (`text.substring(0, 2000)`, route line 76). -/
def analysisPrompt (text : String) : String :=
  promptHeader ++ strTake text 2000 ++ promptFooter

/-- `extractTextFromPDF` after the PDF library has produced the per-page
text items (`item.str`): each page's items joined by a single space, every
page followed by a newline, and the whole trimmed (route lines 19-32). -/
def extractTextFromPDF (pages : List (List String)) : String :=
  jsTrim (pages.foldl (fun acc page => acc ++ jsJoin " " page ++ "\n") "")

/-- Modelled from the spec: the trimmed concatenation of the per-page text
items in page order, items of each page joined by a single space,
consecutive pages separated by a newline. -/
def specPdfText (pages : List (List String)) : String :=
  jsTrim (jsJoin "\n" (pages.map (jsJoin " ")))

/-- The uploaded file as the handler sees it: original name, declared byte
size and declared MIME type. -/
structure FileMeta where
  name : String
  size : Nat
  type : String

/-- The MIME-type allow-list (route lines 155-162). -/
def allowedTypes : List String :=
  ["application/pdf", "image/png", "image/jpeg", "image/jpg", "image/tiff", "image/bmp"]

/-- The 10 MiB size limit (route line 172). -/
def maxSize : Nat := 10 * 1024 * 1024

/-- Error message for a missing file field. -/
def missingFileMsg : String := "No file provided"

/-- Error message for a MIME type outside the allow-list. -/
def unsupportedTypeMsg : String := "Unsupported file type. Please upload PDF or image files."

/-- Error message for an oversized file. -/
def fileTooLargeMsg : String := "File too large. Please upload files smaller than 10MB."

/-- Error message when the trimmed extracted text is too short. -/
def noReadableTextMsg : String := "No readable text found in the file. Please ensure the file contains text content."

/-- Top-level catch message when the PDF extractor threw. -/
def pdfExtractionFailedMsg : String := "Unable to read PDF content. The file may be corrupted or password-protected."

/-- Top-level catch message when the OCR extractor threw. -/
def imageExtractionFailedMsg : String := "Unable to extract text from image. Please ensure the image contains readable text."

/-- Generic top-level catch message. -/
def genericFailureMsg : String := "Failed to process file. Please try again."

/-- An HTTP response: status code and JSON body as an ordered field list. -/
structure Response where
  status : Nat
  body : List (String × JsonValue)

/-- An error reply: the body holds exactly one `error` field. -/
def errorResponse (status : Nat) (msg : String) : Response :=
  { status := status, body := [("error", .str msg)] }

/-- Outcome of the extraction step that ran (PDF parse or OCR): the
recovered text, or the extractor threw. -/
inductive ExtractOutcome where
  | ok (text : String)
  | failed

/-- Serialization of the analysis object into the JSON body;
`JSON.stringify` renders `NaN` as `null`. -/
def analysisToJson (a : Analysis) : JsonValue :=
  .obj [("engagementScore", match a.engagementScore with | some q => .num q | none => .null),
        ("sentiment", a.sentiment),
        ("suggestions", a.suggestions),
        ("keyTopics", a.keyTopics)]

/-- The success body (route lines 209-217): the `extractedText` preview is
the first 1000 characters plus an ellipsis marker when the text is longer,
and `textLength` is the full length of the (trimmed) extracted text. -/
def successBody (f : FileMeta) (text : String) (a : Analysis) : List (String × JsonValue) :=
  [("success", .bool true),
   ("fileName", .str f.name),
   ("fileSize", .num (f.size : ℚ)),
   ("fileType", .str f.type),
   ("extractedText", .str (strTake text 1000 ++ (if text.length > 1000 then "..." else ""))),
   ("analysis", analysisToJson a),
   ("textLength", .num ((text.length : ℚ)))]

/-- The POST handler.  `file` is `formData.get('file')` (`none` when the
field is missing); `extract` is the outcome of whichever extractor the MIME
type dispatches to; `remote` and `parseJson` feed `analyzeContent`.  An
extractor throw propagates to the top-level catch, whose substring matching
on the thrown message picks the extractor-specific text and replies with
status 500 (route lines 219-243). -/
def POST (file : Option FileMeta) (extract : ExtractOutcome)
    (remote : RemoteOutcome) (parseJson : String → Option JsonValue) : Response :=
  match file with
  | none => errorResponse 400 missingFileMsg
  | some f =>
    if !(allowedTypes.contains f.type) then errorResponse 400 unsupportedTypeMsg
    else if f.size > maxSize then errorResponse 400 fileTooLargeMsg
    else
      match extract with
      | .failed =>
        if f.type = "application/pdf" then errorResponse 500 pdfExtractionFailedMsg
        else errorResponse 500 imageExtractionFailedMsg
      | .ok raw =>
        let text := jsTrim raw
        if text = "" ∨ text.length < 10 then errorResponse 400 noReadableTextMsg
        else { status := 200, body := successBody f text (analyzeContent remote parseJson) }

/-- The remote analysis step failed: the SDK threw, the completion carried
no content (or an empty string, which the `!responseContent` guard also
catches), or `JSON.parse` rejected the reply. -/
def remoteAnalysisFailed (remote : RemoteOutcome) (parseJson : String → Option JsonValue) : Prop :=
  remote = .threw ∨ remote = .response none ∨ remote = .response (some "") ∨
    ∃ s, remote = .response (some s) ∧ parseJson s = none

/-- The blob accumulated by the extraction loop before the final trim: each
page's space-joined items followed by a newline. -/
def pdfBlob : List (List String) → String
  | [] => ""
  | p :: ps => jsJoin " " p ++ "\n" ++ pdfBlob ps

theorem extract_foldl_blob (pages : List (List String)) (acc : String) :
    pages.foldl (fun acc page => acc ++ jsJoin " " page ++ "\n") acc = acc ++ pdfBlob pages := by
  induction pages generalizing acc with
  | nil => simp [pdfBlob, String.append_empty]
  | cons p ps ih =>
    rw [List.foldl_cons, ih]
    simp [pdfBlob, String.append_assoc]

theorem pdfBlob_join (pages : List (List String)) (h : pages ≠ []) :
    pdfBlob pages = jsJoin "\n" (pages.map (jsJoin " ")) ++ "\n" := by
  induction pages with
  | nil => exact absurd rfl h
  | cons p ps ih =>
    cases ps with
    | nil => simp [pdfBlob, jsJoin, String.append_empty, String.append_assoc]
    | cons q qs =>
      have e1 : pdfBlob (p :: q :: qs) = jsJoin " " p ++ "\n" ++ pdfBlob (q :: qs) := rfl
      rw [e1, ih (by simp)]
      simp only [List.map_cons, jsJoin]
      simp [String.append_assoc]

theorem jsTrimList_append_newline (l : List Char) :
    jsTrimList (l ++ ['\n']) = jsTrimList l := by
  unfold jsTrimList
  rw [List.dropWhile_append]
  cases h : (List.dropWhile isJsWhitespace l).isEmpty with
  | true =>
    rw [List.isEmpty_iff] at h
    simp [h, List.dropWhile]
  | false =>
    simp only [Bool.false_eq_true, if_false, List.reverse_append, List.reverse_cons,
      List.reverse_nil, List.nil_append, List.singleton_append, List.dropWhile]
    norm_num [isJsWhitespace]

theorem jsTrim_append_newline (s : String) : jsTrim (s ++ "\n") = jsTrim s := by
  show String.mk (jsTrimList (s ++ "\n").data) = String.mk (jsTrimList s.data)
  rw [String.data_append]
  exact congrArg String.mk (jsTrimList_append_newline s.data)

/-- C5: for every PDF whose parse succeeds, the extracted text equals the
trimmed concatenation of the per-page text items in page order 1..N, the
items of each page joined by a single space and consecutive pages separated
by a newline. -/
theorem extractTextFromPDF_matches_spec (pages : List (List String)) :
    extractTextFromPDF pages = specPdfText pages := by
  unfold extractTextFromPDF specPdfText
  rw [extract_foldl_blob, String.empty_append]
  cases pages with
  | nil => rfl
  | cons p ps =>
    rw [pdfBlob_join _ (by simp), jsTrim_append_newline]

theorem clamp_bound (x : Option ℚ) :
    jsMin (some 100) (jsMax (some 0) x) = none ∨
    ∃ q, jsMin (some 100) (jsMax (some 0) x) = some q ∧ 0 ≤ q ∧ q ≤ 100 := by
  cases x with
  | none => left; rfl
  | some y =>
    right
    exact ⟨min 100 (max 0 y), rfl, le_min (by norm_num) (le_max_left _ _), min_le_left _ _⟩

theorem buildParsedAnalysis_score (v : JsonValue) :
    (buildParsedAnalysis v).engagementScore = none ∨
    ∃ q, (buildParsedAnalysis v).engagementScore = some q ∧ 0 ≤ q ∧ q ≤ 100 := by
  cases v with
  | null => right; exact ⟨75, rfl, by norm_num⟩
  | bool b => simp only [buildParsedAnalysis]; exact clamp_bound _
  | num q => simp only [buildParsedAnalysis]; exact clamp_bound _
  | str s => simp only [buildParsedAnalysis]; exact clamp_bound _
  | arr elems => simp only [buildParsedAnalysis]; exact clamp_bound _
  | obj fields => simp only [buildParsedAnalysis]; exact clamp_bound _

/-- C1 (amended): for every value the remote analysis service returns for
`engagementScore`, the score in the returned analysis is either `NaN`
(`none`; a truthy value that does not coerce to a number) or a rational in
[0,100]; it is clamped but not rounded, so a fractional numeric value
inside the range passes through unchanged and need not be an integer. -/
theorem analyzeContent_score_in_range_or_nan (remote : RemoteOutcome)
    (parseJson : String → Option JsonValue) :
    (analyzeContent remote parseJson).engagementScore = none ∨
    ∃ q, (analyzeContent remote parseJson).engagementScore = some q ∧ 0 ≤ q ∧ q ≤ 100 := by
  cases remote with
  | threw => right; exact ⟨75, rfl, by norm_num⟩
  | response c =>
    cases c with
    | none => right; exact ⟨75, rfl, by norm_num⟩
    | some s =>
      by_cases hs : s = ""
      · subst hs; right; exact ⟨75, rfl, by norm_num⟩
      · cases hp : parseJson s with
        | none =>
          right; refine ⟨75, ?_, by norm_num⟩
          simp [analyzeContent, hs, hp, fallbackAnalysis]
        | some v =>
          have hred : analyzeContent (.response (some s)) parseJson = buildParsedAnalysis v := by
            simp [analyzeContent, hs, hp]
          rw [hred]
          exact buildParsedAnalysis_score v

/-- C1 counterexample: a service reply with the fractional score 85/2 = 42.5
is passed through unrounded (42.5 is not an integer: its denominator is 2),
and a truthy non-numeric score yields NaN, so the score as the claim states
it — an integer in [0,100] for every service value — fails. -/
theorem analyzeContent_score_not_integer_cex :
    (analyzeContent (.response (some "reply"))
        (fun _ => some (.obj [("engagementScore", .num (mkRat 85 2))]))).engagementScore
      = some (mkRat 85 2) ∧
    (mkRat 85 2).den ≠ 1 ∧
    (analyzeContent (.response (some "reply"))
        (fun _ => some (.obj [("engagementScore", .str "very high")]))).engagementScore
      = none :=
  ⟨by decide, by decide, by decide⟩

/-- C10: when the service's JSON parses to an object whose
`engagementScore` is the falsy value 0 or whose `sentiment` is the falsy
empty string, `analyzeContent` replaces the field with its default (75,
respectively "neutral") — the same values an absent field receives. -/
theorem analyzeContent_falsy_fields_defaulted (s : String)
    (parseJson : String → Option JsonValue) (fields : List (String × JsonValue))
    (hs : s ≠ "") (hp : parseJson s = some (.obj fields)) :
    (jsonLookup fields "engagementScore" = some (.num 0) →
      (analyzeContent (.response (some s)) parseJson).engagementScore = some 75) ∧
    (jsonLookup fields "sentiment" = some (.str "") →
      (analyzeContent (.response (some s)) parseJson).sentiment = .str "neutral") ∧
    (buildParsedAnalysis (.obj [])).engagementScore = some 75 ∧
    (buildParsedAnalysis (.obj [])).sentiment = .str "neutral" := by
  have hred : analyzeContent (.response (some s)) parseJson = buildParsedAnalysis (.obj fields) := by
    simp [analyzeContent, hs, hp]
  refine ⟨?_, ?_, by decide, rfl⟩
  · intro h0
    rw [hred]
    simp [buildParsedAnalysis, getField, h0, jsOr, truthy, toNumber, jsMax, jsMin]
    norm_num
  · intro h1
    rw [hred]
    simp [buildParsedAnalysis, getField, h1, jsOr, truthy]

theorem analyzeContent_of_remote_failure (remote : RemoteOutcome)
    (parseJson : String → Option JsonValue) (h : remoteAnalysisFailed remote parseJson) :
    analyzeContent remote parseJson = fallbackAnalysis := by
  rcases h with rfl | rfl | rfl | ⟨s, rfl, hp⟩
  · rfl
  · rfl
  · rfl
  · by_cases hs : s = ""
    · simp [analyzeContent, hs]
    · simp [analyzeContent, hs, hp]

theorem post_success_shape (f : FileMeta) (raw : String) (remote : RemoteOutcome)
    (parseJson : String → Option JsonValue)
    (ht : f.type ∈ allowedTypes) (hsz : f.size ≤ maxSize)
    (hlen : ¬ (jsTrim raw).length < 10) :
    POST (some f) (.ok raw) remote parseJson =
      { status := 200, body := successBody f (jsTrim raw) (analyzeContent remote parseJson) } := by
  have hc : allowedTypes.contains f.type = true := List.elem_iff.mpr ht
  have h2 : ¬ f.size > maxSize := by omega
  have hng : ¬ (jsTrim raw = "" ∨ (jsTrim raw).length < 10) := by
    rintro (he | hl)
    · exact hlen (by rw [he]; decide)
    · exact hlen hl
  simp [POST, hc, ht, h2, hng]

/-- C3: whenever extraction succeeded (trimmed text of at least 10
characters) and the remote analysis call throws, returns empty content, or
returns unparseable JSON, the request still completes as a 200 success and
the analysis equals the fixed fallback: score 75, sentiment "neutral", the
four canned suggestions, and key topics ["Content", "Social Media"]. -/
theorem post_remote_failure_fallback_success (f : FileMeta) (raw : String)
    (remote : RemoteOutcome) (parseJson : String → Option JsonValue)
    (ht : f.type ∈ allowedTypes) (hsz : f.size ≤ maxSize)
    (hlen : ¬ (jsTrim raw).length < 10)
    (hfail : remoteAnalysisFailed remote parseJson) :
    POST (some f) (.ok raw) remote parseJson =
      { status := 200,
        body := successBody f (jsTrim raw)
          { engagementScore := some 75
            sentiment := .str "neutral"
            suggestions := .arr [.str "Add more engaging questions to increase comments",
              .str "Include relevant hashtags to improve discoverability",
              .str "Use more visual content to boost engagement",
              .str "Post during peak hours for better reach"]
            keyTopics := .arr [.str "Content", .str "Social Media"] } } := by
  rw [post_success_shape f raw remote parseJson ht hsz hlen,
    analyzeContent_of_remote_failure remote parseJson hfail]
  rfl

theorem post_remote_failure_fallback_success_witness :
    POST (some ⟨"doc.pdf", 2048, "application/pdf"⟩)
        (.ok "Hello world, this is my content") .threw (fun _ => none) =
      { status := 200,
        body := successBody ⟨"doc.pdf", 2048, "application/pdf"⟩
          (jsTrim "Hello world, this is my content")
          { engagementScore := some 75
            sentiment := .str "neutral"
            suggestions := .arr [.str "Add more engaging questions to increase comments",
              .str "Include relevant hashtags to improve discoverability",
              .str "Use more visual content to boost engagement",
              .str "Post during peak hours for better reach"]
            keyTopics := .arr [.str "Content", .str "Social Media"] } } :=
  post_remote_failure_fallback_success ⟨"doc.pdf", 2048, "application/pdf"⟩
    "Hello world, this is my content" .threw (fun _ => none)
    (by decide) (by decide) (by decide) (Or.inl rfl)

/-- C2 counterexample: a `.docx` byte stream declared as `application/pdf`
makes the PDF extractor throw; the handler does answer with the
PDF-specific message, but with HTTP status 500, not 400 as claimed. -/
theorem post_extractor_error_status_cex :
    POST (some ⟨"report.docx", 2048, "application/pdf"⟩) .failed .threw (fun _ => none) =
      { status := 500, body := [("error", .str pdfExtractionFailedMsg)] } ∧
    (POST (some ⟨"report.docx", 2048, "application/pdf"⟩) .failed .threw
        (fun _ => none)).status ≠ 400 :=
  ⟨rfl, by decide⟩

/-- C2 (amended): for every request whose PDF parse or OCR extraction fails
(the extractor throws), the handler responds with HTTP status 500 — not
400 — and the extractor-specific error message (the PDF message on the PDF
branch, the image message otherwise), not the generic failure message. -/
theorem post_extractor_error_specific_500 (f : FileMeta)
    (remote : RemoteOutcome) (parseJson : String → Option JsonValue)
    (ht : f.type ∈ allowedTypes) (hsz : f.size ≤ maxSize) :
    POST (some f) .failed remote parseJson =
      errorResponse 500
        (if f.type = "application/pdf" then pdfExtractionFailedMsg
         else imageExtractionFailedMsg) ∧
    pdfExtractionFailedMsg ≠ genericFailureMsg ∧
    imageExtractionFailedMsg ≠ genericFailureMsg := by
  have hc : allowedTypes.contains f.type = true := List.elem_iff.mpr ht
  have h2 : ¬ f.size > maxSize := by omega
  refine ⟨?_, by decide, by decide⟩
  simp only [POST, hc, Bool.not_true, Bool.false_eq_true, if_false]
  rw [if_neg h2]
  split
  · rfl
  · rfl

theorem post_extractor_error_specific_500_witness :
    POST (some ⟨"scan.png", 4096, "image/png"⟩) .failed .threw (fun _ => none) =
      errorResponse 500
        (if ("image/png" : String) = "application/pdf" then pdfExtractionFailedMsg
         else imageExtractionFailedMsg) ∧
    pdfExtractionFailedMsg ≠ genericFailureMsg ∧
    imageExtractionFailedMsg ≠ genericFailureMsg :=
  post_extractor_error_specific_500 ⟨"scan.png", 4096, "image/png"⟩ .threw (fun _ => none)
    (by decide) (by decide)

/-- C8: when the extractor itself succeeds but the trimmed extracted text
has fewer than 10 characters, the request fails with HTTP status 400 and
the no-readable-text message instead of proceeding to analysis. -/
theorem post_short_text_rejected (f : FileMeta) (raw : String)
    (remote : RemoteOutcome) (parseJson : String → Option JsonValue)
    (ht : f.type ∈ allowedTypes) (hsz : f.size ≤ maxSize)
    (hlen : (jsTrim raw).length < 10) :
    POST (some f) (.ok raw) remote parseJson =
      { status := 400, body := [("error", .str noReadableTextMsg)] } := by
  have hc : allowedTypes.contains f.type = true := List.elem_iff.mpr ht
  have h2 : ¬ f.size > maxSize := by omega
  simp only [POST, hc, Bool.not_true, Bool.false_eq_true, if_false]
  rw [if_neg h2, if_pos (Or.inr hlen)]
  rfl

theorem post_short_text_rejected_witness :
    POST (some ⟨"blank.png", 512, "image/png"⟩) (.ok "   hi \n") .threw (fun _ => none) =
      { status := 400, body := [("error", .str noReadableTextMsg)] } :=
  post_short_text_rejected ⟨"blank.png", 512, "image/png"⟩ "   hi \n" .threw (fun _ => none)
    (by decide) (by decide) (by decide)

/-- C4: validation accepts exactly the files whose declared MIME type is in
the six-element allow-list and whose size is at most 10 × 1024 × 1024
bytes; the checks run in the fixed order missing-file, then type (a bad
type wins even when the size is also bad), then size, and each failure has
its own distinct 400 message. -/
theorem post_validation_checks (extract : ExtractOutcome) (remote : RemoteOutcome)
    (parseJson : String → Option JsonValue) :
    (POST none extract remote parseJson =
      { status := 400, body := [("error", .str missingFileMsg)] }) ∧
    (∀ f : FileMeta, f.type ∉ allowedTypes →
      POST (some f) extract remote parseJson =
        { status := 400, body := [("error", .str unsupportedTypeMsg)] }) ∧
    (∀ f : FileMeta, f.type ∈ allowedTypes → f.size > maxSize →
      POST (some f) extract remote parseJson =
        { status := 400, body := [("error", .str fileTooLargeMsg)] }) ∧
    (∀ f : FileMeta, f.type ∈ allowedTypes → f.size ≤ maxSize →
      (POST (some f) extract remote parseJson).body ≠ [("error", .str missingFileMsg)] ∧
      (POST (some f) extract remote parseJson).body ≠ [("error", .str unsupportedTypeMsg)] ∧
      (POST (some f) extract remote parseJson).body ≠ [("error", .str fileTooLargeMsg)]) ∧
    allowedTypes =
      ["application/pdf", "image/png", "image/jpeg", "image/jpg", "image/tiff", "image/bmp"] ∧
    maxSize = 10 * 1024 * 1024 ∧
    missingFileMsg ≠ unsupportedTypeMsg ∧ missingFileMsg ≠ fileTooLargeMsg ∧
    unsupportedTypeMsg ≠ fileTooLargeMsg := by
  refine ⟨rfl, ?_, ?_, ?_, rfl, rfl, by decide, by decide, by decide⟩
  · intro f h
    simp [POST, h, errorResponse]
  · intro f ht hgt
    simp [POST, ht, hgt, errorResponse]
  · intro f ht hsz
    have hc : allowedTypes.contains f.type = true := List.elem_iff.mpr ht
    have h2 : ¬ f.size > maxSize := by omega
    have hshape : ∃ b, (POST (some f) extract remote parseJson).body = b ∧
        (b = [("error", .str pdfExtractionFailedMsg)] ∨
         b = [("error", .str imageExtractionFailedMsg)] ∨
         b = [("error", .str noReadableTextMsg)] ∨
         ∃ t a, b = successBody f t a) := by
      cases extract with
      | failed =>
        simp only [POST, hc, Bool.not_true, Bool.false_eq_true, if_false]
        rw [if_neg h2]
        split
        · exact ⟨_, rfl, Or.inl rfl⟩
        · exact ⟨_, rfl, Or.inr (Or.inl rfl)⟩
      | ok raw =>
        simp only [POST, hc, Bool.not_true, Bool.false_eq_true, if_false]
        rw [if_neg h2]
        by_cases hng : (jsTrim raw = "" ∨ (jsTrim raw).length < 10)
        · rw [if_pos hng]
          exact ⟨_, rfl, Or.inr (Or.inr (Or.inl rfl))⟩
        · rw [if_neg hng]
          exact ⟨_, rfl, Or.inr (Or.inr (Or.inr ⟨_, _, rfl⟩))⟩
    obtain ⟨b, hb, hcases⟩ := hshape
    refine ⟨?_, ?_, ?_⟩ <;> rw [hb] <;>
      rcases hcases with rfl | rfl | rfl | ⟨t, a, rfl⟩ <;>
      (try simp [successBody]) <;> decide

theorem post_validation_checks_witness :
    POST (some ⟨"big.png", 10485761, "image/png"⟩) .failed .threw (fun _ => none) =
      { status := 400, body := [("error", .str fileTooLargeMsg)] } :=
  (post_validation_checks .failed .threw (fun _ => none)).2.2.1
    ⟨"big.png", 10485761, "image/png"⟩ (by decide) (by decide)

/-- C6: the analysis prompt embeds at most the first 2000 characters of the
extracted text, while the `textLength` field of the success response is the
full untruncated length of that (trimmed) text. -/
theorem prompt_truncation_full_textLength :
    (∀ text : String,
      analysisPrompt text = promptHeader ++ String.mk (text.data.take 2000) ++ promptFooter ∧
      (String.mk (text.data.take 2000)).length ≤ 2000) ∧
    ∀ (f : FileMeta) (raw : String) (remote : RemoteOutcome)
      (parseJson : String → Option JsonValue),
      f.type ∈ allowedTypes → f.size ≤ maxSize → ¬ (jsTrim raw).length < 10 →
      jsonLookup (POST (some f) (.ok raw) remote parseJson).body "textLength" =
        some (.num ((jsTrim raw).length : ℚ)) := by
  constructor
  · intro text
    refine ⟨rfl, ?_⟩
    show (text.data.take 2000).length ≤ 2000
    rw [List.length_take]
    exact min_le_left _ _
  · intro f raw remote parseJson ht hsz hlen
    rw [post_success_shape f raw remote parseJson ht hsz hlen]
    rfl

theorem prompt_truncation_full_textLength_witness :
    jsonLookup (POST (some ⟨"a.pdf", 64, "application/pdf"⟩)
        (.ok "Hello world, this is my content") .threw (fun _ => none)).body "textLength" =
      some (.num ((jsTrim "Hello world, this is my content").length : ℚ)) :=
  prompt_truncation_full_textLength.2 ⟨"a.pdf", 64, "application/pdf"⟩
    "Hello world, this is my content" .threw (fun _ => none)
    (by decide) (by decide) (by decide)

/-- C7: in every success response, the `extractedText` preview is exactly
the full extracted text (no marker) when it has at most 1000 characters,
and the first 1000 characters followed by the ellipsis marker when it is
longer. -/
theorem post_extractedText_preview (f : FileMeta) (raw : String)
    (remote : RemoteOutcome) (parseJson : String → Option JsonValue)
    (ht : f.type ∈ allowedTypes) (hsz : f.size ≤ maxSize)
    (hlen : ¬ (jsTrim raw).length < 10) :
    jsonLookup (POST (some f) (.ok raw) remote parseJson).body "extractedText" =
      some (.str (strTake (jsTrim raw) 1000 ++
        (if (jsTrim raw).length > 1000 then "..." else ""))) ∧
    ((jsTrim raw).length ≤ 1000 →
      jsonLookup (POST (some f) (.ok raw) remote parseJson).body "extractedText" =
        some (.str (jsTrim raw))) ∧
    (1000 < (jsTrim raw).length →
      jsonLookup (POST (some f) (.ok raw) remote parseJson).body "extractedText" =
        some (.str (strTake (jsTrim raw) 1000 ++ "..."))) := by
  have hmain : jsonLookup (POST (some f) (.ok raw) remote parseJson).body "extractedText" =
      some (.str (strTake (jsTrim raw) 1000 ++
        (if (jsTrim raw).length > 1000 then "..." else ""))) := by
    rw [post_success_shape f raw remote parseJson ht hsz hlen]
    rfl
  refine ⟨hmain, ?_, ?_⟩
  · intro hle
    rw [hmain, if_neg (by omega), String.append_empty]
    have htake : strTake (jsTrim raw) 1000 = jsTrim raw := by
      show String.mk ((jsTrim raw).data.take 1000) = jsTrim raw
      exact congrArg String.mk (List.take_of_length_le hle)
    rw [htake]
  · intro hgt
    rw [hmain, if_pos (by omega)]

theorem post_extractedText_preview_witness :
    jsonLookup (POST (some ⟨"a.pdf", 64, "application/pdf"⟩)
        (.ok "Hello world, this is my content") .threw (fun _ => none)).body "extractedText" =
      some (.str (jsTrim "Hello world, this is my content")) :=
  (post_extractedText_preview ⟨"a.pdf", 64, "application/pdf"⟩
      "Hello world, this is my content" .threw (fun _ => none)
      (by decide) (by decide) (by decide)).2.1 (by decide)

/-- C9 counterexample: a validation failure (missing file) answers with a
body holding only the `error` message — there is no `success` field at all,
so the claimed success-flag-false is absent. -/
theorem post_failure_no_success_flag_cex :
    (POST none .failed .threw (fun _ => none)).status = 400 ∧
    (POST none .failed .threw (fun _ => none)).body = [("error", .str missingFileMsg)] ∧
    jsonLookup (POST none .failed .threw (fun _ => none)).body "success" = none :=
  ⟨rfl, rfl, rfl⟩

/-- C9 (amended): every failing request (validation or extraction failure)
answers with a body consisting of exactly one human-readable message under
the `error` key; the body carries no success flag. -/
theorem post_failure_single_error_message (file : Option FileMeta)
    (extract : ExtractOutcome) (remote : RemoteOutcome)
    (parseJson : String → Option JsonValue)
    (h : (POST file extract remote parseJson).status ≠ 200) :
    ∃ m, (POST file extract remote parseJson).body = [("error", JsonValue.str m)] ∧
      jsonLookup (POST file extract remote parseJson).body "success" = none := by
  suffices hb : ∃ m, (POST file extract remote parseJson).body = [("error", JsonValue.str m)] by
    obtain ⟨m, hm⟩ := hb
    exact ⟨m, hm, by rw [hm]; rfl⟩
  cases file with
  | none => exact ⟨missingFileMsg, rfl⟩
  | some f =>
    by_cases hm : f.type ∈ allowedTypes
    · by_cases h2 : f.size > maxSize
      · exact ⟨fileTooLargeMsg, by simp [POST, hm, h2, errorResponse]⟩
      · cases extract with
        | failed =>
          by_cases hpdf : f.type = "application/pdf"
          · exact ⟨pdfExtractionFailedMsg,
              by simp [POST, hm, hpdf ▸ hm, h2, hpdf, errorResponse]⟩
          · exact ⟨imageExtractionFailedMsg, by simp [POST, hm, h2, hpdf, errorResponse]⟩
        | ok raw =>
          by_cases hng : (jsTrim raw = "" ∨ (jsTrim raw).length < 10)
          · exact ⟨noReadableTextMsg, by simp [POST, hm, h2, hng, errorResponse]⟩
          · exact absurd (by simp [POST, hm, h2, hng]) h
    · exact ⟨unsupportedTypeMsg, by simp [POST, hm, errorResponse]⟩

theorem post_failure_single_error_message_witness :
    ∃ m, (POST (some ⟨"anim.gif", 20, "image/gif"⟩) .failed .threw (fun _ => none)).body =
        [("error", JsonValue.str m)] ∧
      jsonLookup (POST (some ⟨"anim.gif", 20, "image/gif"⟩) .failed .threw
          (fun _ => none)).body "success" = none :=
  post_failure_single_error_message (some ⟨"anim.gif", 20, "image/gif"⟩) .failed .threw
    (fun _ => none) (by decide)

theorem analyzeContent_falsy_fields_defaulted_witness :
    (analyzeContent (.response (some "x"))
        (fun _ => some (.obj [("engagementScore", .num 0),
          ("sentiment", .str "")]))).engagementScore = some 75 ∧
    (analyzeContent (.response (some "x"))
        (fun _ => some (.obj [("engagementScore", .num 0),
          ("sentiment", .str "")]))).sentiment = .str "neutral" :=
  ⟨(analyzeContent_falsy_fields_defaulted "x"
      (fun _ => some (.obj [("engagementScore", .num 0), ("sentiment", .str "")]))
      [("engagementScore", .num 0), ("sentiment", .str "")] (by decide) rfl).1 rfl,
   (analyzeContent_falsy_fields_defaulted "x"
      (fun _ => some (.obj [("engagementScore", .num 0), ("sentiment", .str "")]))
      [("engagementScore", .num 0), ("sentiment", .str "")] (by decide) rfl).2.1 rfl⟩
